import Mathlib

/-!
Verification of the EVC (MPEG-5 Essential Video Coding) elementary-stream
parsing core of this repository against its natural-language specification.

The definitions below are a shallow embedding of the C sources
`libavcodec/evc_parse.c`, `libavcodec/evc_parser.c` and
`libavcodec/evc_frame_merge_bsf.c`.  C machine integers are embedded as
`Nat`/`Int`; bytes are `Nat` values below 256; C structs become Lean
structures; the id-indexed parameter-set tables become functions
`Nat -> record` (the value-array variant of `evc_parser.c`) or
`Nat -> Option record` (the pointer-array variant of `evc_parse.c`).
Bit-level readers (`get_bits.h`, `golomb.h`) and the generic frame
combiner (`parser.c`) are not part of the sources, so they are modelled
from the specification, and are marked as such in their doc comments.
-/

set_option maxRecDepth 10000

/-- Constant modelled from the spec: the 4-byte big-endian NAL length field
(`evc.h` is not among the sources). -/
def EVC_NALU_LENGTH_PREFIX_SIZE : Nat := 4

/-- Constant modelled from the spec: the 2-byte NAL unit header
(`evc.h` is not among the sources). -/
def EVC_NALU_HEADER_SIZE : Nat := 2

/-- Constant modelled from the spec: bound of the SPS id table
(`evc.h` is not among the sources; sps ids occupy `[0, 15]`). -/
def EVC_MAX_SPS_COUNT : Nat := 16

/-- Constant modelled from the spec: bound of the PPS id table
(`evc.h` is not among the sources; pps ids occupy `[0, 63]`). -/
def EVC_MAX_PPS_COUNT : Nat := 64

/-- NAL unit type codes, modelled from the spec and the comments of the
sources (`evc.h` is not among the sources). -/
def EVC_NOIDR_NUT : Int := 0

/-- NAL unit type code of an IDR slice. -/
def EVC_IDR_NUT : Int := 1

/-- NAL unit type code of a sequence parameter set. -/
def EVC_SPS_NUT : Int := 24

/-- NAL unit type code of a picture parameter set. -/
def EVC_PPS_NUT : Int := 25

/-- NAL unit type code of an adaptation parameter set. -/
def EVC_APS_NUT : Int := 26

/-- NAL unit type code of filler data. -/
def EVC_FD_NUT : Int := 27

/-- NAL unit type code of supplemental enhancement information. -/
def EVC_SEI_NUT : Int := 28

/-- Largest valid NAL unit type code. -/
def EVC_UNSPEC_NUT62 : Int := 62

/-- Slice type codes used by the slice-header syntax. -/
def EVC_SLICE_TYPE_B : Nat := 0

/-- Slice type code of a P slice. -/
def EVC_SLICE_TYPE_P : Nat := 1

/-- Slice type code of an I slice. -/
def EVC_SLICE_TYPE_I : Nat := 2

/-- Profile value stored into the codec context for Baseline streams
(modelled from the spec; `avcodec.h` is not among the sources). -/
def FF_PROFILE_EVC_BASELINE : Int := 0

/-- Profile value stored into the codec context for Main streams. -/
def FF_PROFILE_EVC_MAIN : Int := 1

/-- Initial, unknown profile value of a codec context. -/
def FF_PROFILE_UNKNOWN : Int := -99

/-- Modelled from the spec: the sequential bit reader over a byte buffer
(`get_bits.h` is not among the sources).  `data` is the byte buffer the C
pointer gives access to, `limitBits` the bit size declared at
initialisation, `pos` the running bit position. -/
structure GetBitContext where
  data : List Nat
  limitBits : Nat
  pos : Nat

/-- Modelled from the spec: `init_get_bits8` sets up a reader over `size`
bytes starting at `bs`. -/
def init_get_bits8 (bs : List Nat) (size : Nat) : GetBitContext :=
  { data := bs, limitBits := 8 * size, pos := 0 }

/-- Monad of the bit-level parsing process: state is the reader, a read
past the available data fails. -/
abbrev BitM (α : Type) := StateT GetBitContext Option α

/-- Modelled from the spec: read one bit (most significant bit of each
byte first).  Fails when the declared bit limit or the buffer end is
passed. -/
def get_bits1 : BitM Nat := fun gb =>
  if gb.pos < gb.limitBits then
    match gb.data.get? (gb.pos / 8) with
    | some byte => some ((byte >>> (7 - gb.pos % 8)) &&& 1, { gb with pos := gb.pos + 1 })
    | none => none
  else
    none

/-- Modelled from the spec: `read_bits(n)`; reads `n` bits MSB first. -/
def get_bits (n : Nat) : BitM Nat :=
  (List.range n).foldlM (fun acc _ => do
    let b ← get_bits1
    pure (2 * acc + b)) 0

/-- Modelled from the spec: skip `n` bits. -/
def skip_bits_long (n : Nat) : BitM Unit := do
  let _ ← get_bits n
  pure ()

/-- Auxiliary zero-run counter of the Exp-Golomb decoder, with explicit
fuel (the zero run is bounded by the reader limit). -/
def ueZeroRun : Nat → BitM Nat
  | 0 => failure
  | fuel + 1 => do
    let b ← get_bits1
    if b = 1 then pure 0
    else do
      let k ← ueZeroRun fuel
      pure (k + 1)

/-- Modelled from the spec: `read_ue`, 0-th order unsigned Exp-Golomb:
count leading zero bits `k`, read `k` more bits, value is
`2^k - 1 + suffix` (`golomb.h` is not among the sources). -/
def get_ue_golomb : BitM Nat := do
  let gb ← get
  let k ← ueZeroRun (gb.limitBits + 1)
  let suffix ← get_bits k
  pure (2 ^ k - 1 + suffix)

/-- Modelled from the spec: `read_se`, signed Exp-Golomb derived from the
unsigned value by `(-1)^(v+1) * ceil(v/2)`. -/
def get_se_golomb : BitM Int := do
  let v ← get_ue_golomb
  if v % 2 = 1 then pure (((v + 1) / 2 : Nat) : Int)
  else pure (-((v / 2 : Nat) : Int))

/-- Embeds `ff_evc_get_nalu_type` of `evc_parse.c` (identical to the
static `get_nalu_type` of `evc_parser.c`): with at least 2 bytes and a
clear forbidden bit it yields `((byte0 >> 1) & 0x3F) - 1`; a set
forbidden bit yields `-1`; fewer than 2 bytes leave `unit_type_plus1`
at 0, so the result is also `-1`. -/
def ff_evc_get_nalu_type (bits : List Nat) (bits_size : Nat) : Int :=
  if EVC_NALU_HEADER_SIZE ≤ bits_size then
    let b0 := bits.getD 0 0
    if b0 &&& 0x80 ≠ 0 then -1
    else ((b0 >>> 1) &&& 0x3F : Nat) - 1
  else
    (0 : Int) - 1

/-- Embeds `ff_evc_read_nal_unit_length` of `evc_parse.c` (identical to
the static `read_nal_unit_length` of `evc_parser.c`): with at least 4
bytes the big-endian 32-bit value of the first 4 bytes, otherwise 0. -/
def ff_evc_read_nal_unit_length (bits : List Nat) (bits_size : Nat) : Nat :=
  if EVC_NALU_LENGTH_PREFIX_SIZE ≤ bits_size then
    (List.range EVC_NALU_LENGTH_PREFIX_SIZE).foldl
      (fun t i => t * 256 + bits.getD i 0) 0
  else
    0

/-- Embeds `ff_evc_get_temporal_id` of `evc_parse.c` (identical to the
static `get_temporal_id` of `evc_parser.c`): with at least 2 bytes and a
clear forbidden bit it is `(((byte0 << 8) | byte1) >> 6) & 7`; a set
forbidden bit yields `-1`; fewer than 2 bytes yield 0. -/
def ff_evc_get_temporal_id (bits : List Nat) (bits_size : Nat) : Int :=
  if EVC_NALU_HEADER_SIZE ≤ bits_size then
    let b0 := bits.getD 0 0
    if b0 &&& 0x80 ≠ 0 then -1
    else (((b0 * 256 + bits.getD 1 0) >>> 6) &&& 0x0007 : Nat)
  else
    0

/-- Embeds `RefPicListStruct` of the sources; the fixed C array of
reference deltas becomes a list. -/
structure RefPicListStruct where
  ref_pic_num : Nat := 0
  ref_pics : List Int := []

/-- Embeds `ref_pic_list_struct` (7.3.7 reference picture list structure
syntax).  The sign flag is only re-read when a delta is non-zero, so a
zero delta reuses the previous sign, exactly as in the source. -/
def ref_pic_list_struct : BitM RefPicListStruct := do
  let mut sign : Nat := 0
  let mut pics : List Int := []
  let mut last : Int := 0
  let refNum ← get_ue_golomb
  if 0 < refNum then
    let delta ← get_ue_golomb
    last := (delta : Int)
    if last ≠ 0 then
      sign ← get_bits1
      last := last * (1 - 2 * (sign : Int))
    pics := [last]
  for _ in List.range (refNum - 1) do
    let delta ← get_ue_golomb
    if delta ≠ 0 then
      sign ← get_bits1
    last := last + (delta : Int) * (1 - 2 * (sign : Int))
    pics := pics ++ [last]
  pure { ref_pic_num := refNum, ref_pics := pics }

/-- Embeds `HRDParameters` of the sources. -/
structure HRDParameters where
  cpb_cnt_minus1 : Nat := 0
  bit_rate_scale : Nat := 0
  cpb_size_scale : Nat := 0
  bit_rate_value_minus1 : List Nat := []
  cpb_size_value_minus1 : List Nat := []
  cbr_flag : List Nat := []
  initial_cpb_removal_delay_length_minus1 : Nat := 0
  cpb_removal_delay_length_minus1 : Nat := 0
  dpb_output_delay_length_minus1 : Nat := 0
  time_offset_length : Nat := 0

/-- Embeds `hrd_parameters`.  The source writes
`cpb_removal_delay_length_minus1` twice in a row (the second read was
evidently meant for `dpb_output_delay_length_minus1`); the embedding
reproduces that, so `dpb_output_delay_length_minus1` is never written. -/
def hrd_parameters (start : HRDParameters) : BitM HRDParameters := do
  let mut hrd := start
  let cnt ← get_ue_golomb
  hrd := { hrd with cpb_cnt_minus1 := cnt }
  let brs ← get_bits 4
  hrd := { hrd with bit_rate_scale := brs }
  let css ← get_bits 4
  hrd := { hrd with cpb_size_scale := css }
  let mut brv : List Nat := []
  let mut csv : List Nat := []
  let mut cbr : List Nat := []
  for _ in List.range (cnt + 1) do
    let a ← get_ue_golomb
    brv := brv ++ [a]
    let b ← get_ue_golomb
    csv := csv ++ [b]
    let c ← get_bits1
    cbr := cbr ++ [c]
  hrd := { hrd with bit_rate_value_minus1 := brv, cpb_size_value_minus1 := csv, cbr_flag := cbr }
  let icrd ← get_bits 5
  hrd := { hrd with initial_cpb_removal_delay_length_minus1 := icrd }
  let crd1 ← get_bits 5
  hrd := { hrd with cpb_removal_delay_length_minus1 := crd1 }
  let crd2 ← get_bits 5
  hrd := { hrd with cpb_removal_delay_length_minus1 := crd2 }
  let tol ← get_bits 5
  hrd := { hrd with time_offset_length := tol }
  pure hrd

/-- Embeds `VUIParameters` of the sources. -/
structure VUIParameters where
  aspect_ratio_info_present_flag : Nat := 0
  aspect_ratio_idc : Nat := 0
  sar_width : Nat := 0
  sar_height : Nat := 0
  overscan_info_present_flag : Nat := 0
  overscan_appropriate_flag : Nat := 0
  video_signal_type_present_flag : Nat := 0
  video_format : Nat := 0
  video_full_range_flag : Nat := 0
  colour_description_present_flag : Nat := 0
  colour_primaries : Nat := 0
  transfer_characteristics : Nat := 0
  matrix_coefficients : Nat := 0
  chroma_loc_info_present_flag : Nat := 0
  chroma_sample_loc_type_top_field : Nat := 0
  chroma_sample_loc_type_bottom_field : Nat := 0
  neutral_chroma_indication_flag : Nat := 0
  field_seq_flag : Nat := 0
  timing_info_present_flag : Nat := 0
  num_units_in_tick : Nat := 0
  time_scale : Nat := 0
  fixed_pic_rate_flag : Nat := 0
  nal_hrd_parameters_present_flag : Nat := 0
  vcl_hrd_parameters_present_flag : Nat := 0
  low_delay_hrd_flag : Nat := 0
  pic_struct_present_flag : Nat := 0
  bitstream_restriction_flag : Nat := 0
  motion_vectors_over_pic_boundaries_flag : Nat := 0
  max_bytes_per_pic_denom : Nat := 0
  max_bits_per_mb_denom : Nat := 0
  log2_max_mv_length_horizontal : Nat := 0
  log2_max_mv_length_vertical : Nat := 0
  num_reorder_pics : Nat := 0
  max_dec_pic_buffering : Nat := 0
  hrd_parameters : HRDParameters := {}

/-- Embeds `vui_parameters` (E.2.1 VUI parameters syntax).  `EXTENDED_SAR`
is 255.  Both HRD blocks are read into the single `hrd_parameters`
field, the second overwriting the first, as in the source. -/
def vui_mk_a (start : VUIParameters)
    (arp idc sw sh ovs oap vst vf vfr cdp cp tc mc : Nat) : VUIParameters :=
  { start with
    aspect_ratio_info_present_flag := arp, aspect_ratio_idc := idc,
    sar_width := sw, sar_height := sh,
    overscan_info_present_flag := ovs, overscan_appropriate_flag := oap,
    video_signal_type_present_flag := vst, video_format := vf,
    video_full_range_flag := vfr, colour_description_present_flag := cdp,
    colour_primaries := cp, transfer_characteristics := tc,
    matrix_coefficients := mc }

/-- First section of `vui_parameters`: aspect ratio, overscan and
video-signal-type fields. -/
def vui_parameters_a (start : VUIParameters) : BitM VUIParameters := do
  let arp ← get_bits1
  let (idc, sw, sh) ←
    if arp ≠ 0 then do
      let idc ← get_bits 8
      if idc = 255 then do
        let w ← get_bits 16
        let h ← get_bits 16
        pure (idc, w, h)
      else pure (idc, start.sar_width, start.sar_height)
    else pure (start.aspect_ratio_idc, start.sar_width, start.sar_height)
  let ovs ← get_bits1
  let oap ← if ovs ≠ 0 then get_bits1 else pure start.overscan_appropriate_flag
  let vst ← get_bits1
  let (vf, vfr, cdp, cp, tc, mc) ←
    if vst ≠ 0 then do
      let vf ← get_bits 3
      let vfr ← get_bits1
      let cdp ← get_bits1
      if cdp ≠ 0 then do
        let cp ← get_bits 8
        let tc ← get_bits 8
        let mc ← get_bits 8
        pure (vf, vfr, cdp, cp, tc, mc)
      else
        pure (vf, vfr, cdp, start.colour_primaries, start.transfer_characteristics,
              start.matrix_coefficients)
    else
      pure (start.video_format, start.video_full_range_flag,
            start.colour_description_present_flag, start.colour_primaries,
            start.transfer_characteristics, start.matrix_coefficients)
  pure (vui_mk_a start arp idc sw sh ovs oap vst vf vfr cdp cp tc mc)

def vui_mk_b (start : VUIParameters) (cli cslt cslb nci fsf tip nut ts fpr : Nat) :
    VUIParameters :=
  { start with
    chroma_loc_info_present_flag := cli,
    chroma_sample_loc_type_top_field := cslt,
    chroma_sample_loc_type_bottom_field := cslb,
    neutral_chroma_indication_flag := nci, field_seq_flag := fsf,
    timing_info_present_flag := tip, num_units_in_tick := nut,
    time_scale := ts, fixed_pic_rate_flag := fpr }

/-- Second section of `vui_parameters`: chroma location, neutral chroma,
field sequence and timing fields. -/
def vui_parameters_b (start : VUIParameters) : BitM VUIParameters := do
  let cli ← get_bits1
  let (cslt, cslb) ←
    if cli ≠ 0 then do
      let t ← get_ue_golomb
      let b ← get_ue_golomb
      pure (t, b)
    else
      pure (start.chroma_sample_loc_type_top_field,
            start.chroma_sample_loc_type_bottom_field)
  let nci ← get_bits1
  let fsf ← get_bits1
  let tip ← get_bits1
  let (nut, ts, fpr) ←
    if tip ≠ 0 then do
      let nut ← get_bits 32
      let ts ← get_bits 32
      let fpr ← get_bits1
      pure (nut, ts, fpr)
    else pure (start.num_units_in_tick, start.time_scale, start.fixed_pic_rate_flag)
  pure (vui_mk_b start cli cslt cslb nci fsf tip nut ts fpr)

def vui_mk_c (start : VUIParameters)
    (nhp vhp ldh psp bsr mv mbp mbm mvh mvv nrp mdpb : Nat)
    (hrd : HRDParameters) : VUIParameters :=
  { start with
    nal_hrd_parameters_present_flag := nhp,
    vcl_hrd_parameters_present_flag := vhp, low_delay_hrd_flag := ldh,
    pic_struct_present_flag := psp, bitstream_restriction_flag := bsr,
    motion_vectors_over_pic_boundaries_flag := mv,
    max_bytes_per_pic_denom := mbp, max_bits_per_mb_denom := mbm,
    log2_max_mv_length_horizontal := mvh, log2_max_mv_length_vertical := mvv,
    num_reorder_pics := nrp, max_dec_pic_buffering := mdpb,
    hrd_parameters := hrd }

/-- Third section of `vui_parameters`: the two HRD blocks (both read into
the single `hrd_parameters` field, the second overwriting the first, as
in the source) and the bitstream-restriction fields. -/
def vui_parameters_c (start : VUIParameters) : BitM VUIParameters := do
  let nhp ← get_bits1
  let hrd1 ← if nhp ≠ 0 then hrd_parameters start.hrd_parameters
             else pure start.hrd_parameters
  let vhp ← get_bits1
  let hrd2 ← if vhp ≠ 0 then hrd_parameters hrd1 else pure hrd1
  let ldh ← if nhp ≠ 0 ∨ vhp ≠ 0 then get_bits1 else pure start.low_delay_hrd_flag
  let psp ← get_bits1
  let bsr ← get_bits1
  let (mv, mbp, mbm, mvh, mvv, nrp, mdpb) ←
    if bsr ≠ 0 then do
      let mv ← get_bits1
      let mbp ← get_ue_golomb
      let mbm ← get_ue_golomb
      let mvh ← get_ue_golomb
      let mvv ← get_ue_golomb
      let nrp ← get_ue_golomb
      let mdpb ← get_ue_golomb
      pure (mv, mbp, mbm, mvh, mvv, nrp, mdpb)
    else
      pure (start.motion_vectors_over_pic_boundaries_flag,
            start.max_bytes_per_pic_denom, start.max_bits_per_mb_denom,
            start.log2_max_mv_length_horizontal, start.log2_max_mv_length_vertical,
            start.num_reorder_pics, start.max_dec_pic_buffering)
  pure (vui_mk_c start nhp vhp ldh psp bsr mv mbp mbm mvh mvv nrp mdpb hrd2)

/-- Embeds `vui_parameters` (E.2.1 VUI parameters syntax); the three
sections above are read in order. -/
def vui_parameters (start : VUIParameters) : BitM VUIParameters := do
  let a ← vui_parameters_a start
  let b ← vui_parameters_b a
  vui_parameters_c b

/-- Embeds `ChromaQpTable` of the sources; the 2-D arrays become lists of
lists. -/
structure ChromaQpTable where
  chroma_qp_table_present_flag : Nat := 0
  same_qp_table_for_chroma : Nat := 0
  global_offset_flag : Nat := 0
  num_points_in_qp_table_minus1 : List Nat := []
  delta_qp_in_val_minus1 : List (List Nat) := []
  delta_qp_out_val : List (List Int) := []

/-- Embeds `EVCParserSPS` of the sources. -/
structure EVCParserSPS where
  sps_seq_parameter_set_id : Nat := 0
  profile_idc : Nat := 0
  level_idc : Nat := 0
  chroma_format_idc : Nat := 0
  pic_width_in_luma_samples : Nat := 0
  pic_height_in_luma_samples : Nat := 0
  bit_depth_luma_minus8 : Nat := 0
  bit_depth_chroma_minus8 : Nat := 0
  sps_btt_flag : Nat := 0
  log2_ctu_size_minus5 : Nat := 0
  log2_min_cb_size_minus2 : Nat := 0
  log2_diff_ctu_max_14_cb_size : Nat := 0
  log2_diff_ctu_max_tt_cb_size : Nat := 0
  log2_diff_min_cb_min_tt_cb_size_minus2 : Nat := 0
  sps_suco_flag : Nat := 0
  log2_diff_ctu_size_max_suco_cb_size : Nat := 0
  log2_diff_max_suco_min_suco_cb_size : Nat := 0
  sps_admvp_flag : Nat := 0
  sps_affine_flag : Nat := 0
  sps_amvr_flag : Nat := 0
  sps_dmvr_flag : Nat := 0
  sps_mmvd_flag : Nat := 0
  sps_hmvp_flag : Nat := 0
  sps_eipd_flag : Nat := 0
  sps_ibc_flag : Nat := 0
  log2_max_ibc_cand_size_minus2 : Nat := 0
  sps_cm_init_flag : Nat := 0
  sps_adcc_flag : Nat := 0
  sps_iqt_flag : Nat := 0
  sps_ats_flag : Nat := 0
  sps_addb_flag : Nat := 0
  sps_alf_flag : Nat := 0
  sps_htdf_flag : Nat := 0
  sps_rpl_flag : Nat := 0
  sps_pocs_flag : Nat := 0
  sps_dquant_flag : Nat := 0
  sps_dra_flag : Nat := 0
  log2_max_pic_order_cnt_lsb_minus4 : Nat := 0
  log2_sub_gop_length : Nat := 0
  log2_ref_pic_gap_length : Nat := 0
  max_num_tid0_ref_pics : Nat := 0
  sps_max_dec_pic_buffering_minus1 : Nat := 0
  long_term_ref_pic_flag : Nat := 0
  rpl1_same_as_rpl0_flag : Nat := 0
  num_ref_pic_list_in_sps0 : Nat := 0
  num_ref_pic_list_in_sps1 : Nat := 0
  rpls0 : List RefPicListStruct := []
  rpls1 : List RefPicListStruct := []
  picture_cropping_flag : Nat := 0
  picture_crop_left_offset : Nat := 0
  picture_crop_right_offset : Nat := 0
  picture_crop_top_offset : Nat := 0
  picture_crop_bottom_offset : Nat := 0
  chroma_qp_table_struct : ChromaQpTable := {}
  vui_parameters_present_flag : Nat := 0
  vui_parameters : VUIParameters := {}

/-- Embeds the chroma QP table block of `parse_sps` (the body of the
`chroma_qp_table_present_flag` branch). -/
def chroma_qp_table_read (start : ChromaQpTable) : BitM ChromaQpTable := do
  let same ← get_bits1
  let glob ← get_bits1
  let mut nps : List Nat := []
  let mut invals : List (List Nat) := []
  let mut outvals : List (List Int) := []
  for _ in List.range (if same ≠ 0 then 1 else 2) do
    let np ← get_ue_golomb
    nps := nps ++ [np]
    let mut iv : List Nat := []
    let mut ov : List Int := []
    for _ in List.range (np + 1) do
      let a ← get_bits 6
      iv := iv ++ [a]
      let b ← get_se_golomb
      ov := ov ++ [b]
    invals := invals ++ [iv]
    outvals := outvals ++ [ov]
  pure { start with same_qp_table_for_chroma := same, global_offset_flag := glob,
                    num_points_in_qp_table_minus1 := nps,
                    delta_qp_in_val_minus1 := invals, delta_qp_out_val := outvals }

def sps_mk_a (start : EVCParserSPS) (pid lid cf w h bdl bdc : Nat) : EVCParserSPS :=
  { start with
    profile_idc := pid, level_idc := lid, chroma_format_idc := cf,
    pic_width_in_luma_samples := w, pic_height_in_luma_samples := h,
    bit_depth_luma_minus8 := bdl, bit_depth_chroma_minus8 := bdc }

/-- Section of `parse_sps`: profile, level, the two skipped toolset
words, chroma format, picture size and bit depths. -/
def parse_sps_a (start : EVCParserSPS) : BitM EVCParserSPS := do
  let pid ← get_bits 8
  let lid ← get_bits 8
  skip_bits_long 32
  skip_bits_long 32
  let cf ← get_ue_golomb
  let w ← get_ue_golomb
  let h ← get_ue_golomb
  let bdl ← get_ue_golomb
  let bdc ← get_ue_golomb
  pure (sps_mk_a start pid lid cf w h bdl bdc)

def sps_mk_b (start : EVCParserSPS) (btt c1 c2 c3 c4 c5 suco s1 s2 : Nat) :
    EVCParserSPS :=
  { start with
    sps_btt_flag := btt, log2_ctu_size_minus5 := c1, log2_min_cb_size_minus2 := c2,
    log2_diff_ctu_max_14_cb_size := c3, log2_diff_ctu_max_tt_cb_size := c4,
    log2_diff_min_cb_min_tt_cb_size_minus2 := c5,
    sps_suco_flag := suco, log2_diff_ctu_size_max_suco_cb_size := s1,
    log2_diff_max_suco_min_suco_cb_size := s2 }

/-- Section of `parse_sps`: the BTT and SUCO sub-trees. -/
def parse_sps_b (start : EVCParserSPS) : BitM EVCParserSPS := do
  let btt ← get_bits1
  let (c1, c2, c3, c4, c5) ←
    if btt ≠ 0 then do
      let c1 ← get_ue_golomb
      let c2 ← get_ue_golomb
      let c3 ← get_ue_golomb
      let c4 ← get_ue_golomb
      let c5 ← get_ue_golomb
      pure (c1, c2, c3, c4, c5)
    else
      pure (start.log2_ctu_size_minus5, start.log2_min_cb_size_minus2,
            start.log2_diff_ctu_max_14_cb_size, start.log2_diff_ctu_max_tt_cb_size,
            start.log2_diff_min_cb_min_tt_cb_size_minus2)
  let suco ← get_bits1
  let (s1, s2) ←
    if suco ≠ 0 then do
      let s1 ← get_ue_golomb
      let s2 ← get_ue_golomb
      pure (s1, s2)
    else
      pure (start.log2_diff_ctu_size_max_suco_cb_size,
            start.log2_diff_max_suco_min_suco_cb_size)
  pure (sps_mk_b start btt c1 c2 c3 c4 c5 suco s1 s2)

def sps_mk_c (start : EVCParserSPS)
    (admvp af am dm mm hm eipd ibc cand cmi adcc iqt ats : Nat) : EVCParserSPS :=
  { start with
    sps_admvp_flag := admvp, sps_affine_flag := af, sps_amvr_flag := am,
    sps_dmvr_flag := dm, sps_mmvd_flag := mm, sps_hmvp_flag := hm,
    sps_eipd_flag := eipd, sps_ibc_flag := ibc,
    log2_max_ibc_cand_size_minus2 := cand,
    sps_cm_init_flag := cmi, sps_adcc_flag := adcc,
    sps_iqt_flag := iqt, sps_ats_flag := ats }

/-- Section of `parse_sps`: the ADMVP, EIPD/IBC, CM_INIT/ADCC and
IQT/ATS sub-trees. -/
def parse_sps_c (start : EVCParserSPS) : BitM EVCParserSPS := do
  let admvp ← get_bits1
  let (af, am, dm, mm, hm) ←
    if admvp ≠ 0 then do
      let af ← get_bits1
      let am ← get_bits1
      let dm ← get_bits1
      let mm ← get_bits1
      let hm ← get_bits1
      pure (af, am, dm, mm, hm)
    else
      pure (start.sps_affine_flag, start.sps_amvr_flag, start.sps_dmvr_flag,
            start.sps_mmvd_flag, start.sps_hmvp_flag)
  let eipd ← get_bits1
  let (ibc, cand) ←
    if eipd ≠ 0 then do
      let ibc ← get_bits1
      if ibc ≠ 0 then do
        let cand ← get_ue_golomb
        pure (ibc, cand)
      else pure (ibc, start.log2_max_ibc_cand_size_minus2)
    else pure (start.sps_ibc_flag, start.log2_max_ibc_cand_size_minus2)
  let cmi ← get_bits1
  let adcc ← if cmi ≠ 0 then get_bits1 else pure start.sps_adcc_flag
  let iqt ← get_bits1
  let ats ← if iqt ≠ 0 then get_bits1 else pure start.sps_ats_flag
  pure (sps_mk_c start admvp af am dm mm hm eipd ibc cand cmi adcc iqt ats)

def sps_mk_d (start : EVCParserSPS)
    (addb alf htdf rpl pocs dquant dra lmax lsub lgap : Nat) : EVCParserSPS :=
  { start with
    sps_addb_flag := addb, sps_alf_flag := alf, sps_htdf_flag := htdf,
    sps_rpl_flag := rpl, sps_pocs_flag := pocs, sps_dquant_flag := dquant,
    sps_dra_flag := dra, log2_max_pic_order_cnt_lsb_minus4 := lmax,
    log2_sub_gop_length := lsub, log2_ref_pic_gap_length := lgap }

/-- Section of `parse_sps`: the seven unconditional tool flags, then the
POC-lsb length (when `sps_pocs_flag` is set) and the sub-GOP length and
reference-picture-gap length (when `sps_pocs_flag` or `sps_rpl_flag` is
clear). -/
def parse_sps_d (start : EVCParserSPS) : BitM EVCParserSPS := do
  let addb ← get_bits1
  let alf ← get_bits1
  let htdf ← get_bits1
  let rpl ← get_bits1
  let pocs ← get_bits1
  let dquant ← get_bits1
  let dra ← get_bits1
  let lmax ← if pocs ≠ 0 then get_ue_golomb
             else pure start.log2_max_pic_order_cnt_lsb_minus4
  let (lsub, lgap) ←
    if pocs = 0 ∨ rpl = 0 then do
      let lsub ← get_ue_golomb
      if lsub = 0 then do
        let lgap ← get_ue_golomb
        pure (lsub, lgap)
      else pure (lsub, start.log2_ref_pic_gap_length)
    else pure (start.log2_sub_gop_length, start.log2_ref_pic_gap_length)
  pure (sps_mk_d start addb alf htdf rpl pocs dquant dra lmax lsub lgap)

def sps_mk_e (start : EVCParserSPS)
    (tid0 mdpb lt same n0 n1 : Nat) (r0 r1 : List RefPicListStruct) : EVCParserSPS :=
  { start with
    max_num_tid0_ref_pics := tid0, sps_max_dec_pic_buffering_minus1 := mdpb,
    long_term_ref_pic_flag := lt, rpl1_same_as_rpl0_flag := same,
    num_ref_pic_list_in_sps0 := n0, num_ref_pic_list_in_sps1 := n1,
    rpls0 := r0, rpls1 := r1 }

/-- Section of `parse_sps`: `max_num_tid0_ref_pics` when
`sps_rpl_flag` is clear, the reference-picture-list tables otherwise. -/
def parse_sps_e (start : EVCParserSPS) : BitM EVCParserSPS := do
  if start.sps_rpl_flag = 0 then do
    let tid0 ← get_ue_golomb
    pure (sps_mk_e start tid0 start.sps_max_dec_pic_buffering_minus1
          start.long_term_ref_pic_flag start.rpl1_same_as_rpl0_flag
          start.num_ref_pic_list_in_sps0 start.num_ref_pic_list_in_sps1
          start.rpls0 start.rpls1)
  else do
    let mdpb ← get_ue_golomb
    let lt ← get_bits1
    let same ← get_bits1
    let n0 ← get_ue_golomb
    let mut r0 : List RefPicListStruct := []
    for _ in List.range n0 do
      let r ← ref_pic_list_struct
      r0 := r0 ++ [r]
    let mut n1 := start.num_ref_pic_list_in_sps1
    let mut r1 : List RefPicListStruct := start.rpls1
    if same = 0 then
      n1 ← get_ue_golomb
      r1 := []
      for _ in List.range n1 do
        let r ← ref_pic_list_struct
        r1 := r1 ++ [r]
    pure (sps_mk_e start start.max_num_tid0_ref_pics mdpb lt same n0 n1 r0 r1)

def sps_mk_f (start : EVCParserSPS) (crop cl cr ct cb : Nat) (qp : ChromaQpTable)
    (vuip : Nat) (vui : VUIParameters) : EVCParserSPS :=
  { start with
    picture_cropping_flag := crop, picture_crop_left_offset := cl,
    picture_crop_right_offset := cr, picture_crop_top_offset := ct,
    picture_crop_bottom_offset := cb, chroma_qp_table_struct := qp,
    vui_parameters_present_flag := vuip, vui_parameters := vui }

/-- Section of `parse_sps`: cropping offsets, the chroma QP table block
(only when `chroma_format_idc` is non-zero) and the VUI block. -/
def parse_sps_f (start : EVCParserSPS) : BitM EVCParserSPS := do
  let crop ← get_bits1
  let (cl, cr, ct, cb) ←
    if crop ≠ 0 then do
      let cl ← get_ue_golomb
      let cr ← get_ue_golomb
      let ct ← get_ue_golomb
      let cb ← get_ue_golomb
      pure (cl, cr, ct, cb)
    else
      pure (start.picture_crop_left_offset, start.picture_crop_right_offset,
            start.picture_crop_top_offset, start.picture_crop_bottom_offset)
  let qp ←
    if start.chroma_format_idc ≠ 0 then do
      let present ← get_bits1
      let qp0 := { start.chroma_qp_table_struct with chroma_qp_table_present_flag := present }
      if present ≠ 0 then chroma_qp_table_read qp0
      else pure qp0
    else pure start.chroma_qp_table_struct
  let vuip ← get_bits1
  let vui ← if vuip ≠ 0 then vui_parameters start.vui_parameters
            else pure start.vui_parameters
  pure (sps_mk_f start crop cl cr ct cb qp vuip vui)

/-- Embeds the field-reading part of `parse_sps` of `evc_parser.c`
(identical to `ff_evc_parse_sps` of `evc_parse.c`), after the id has
been read and bounds-checked: the six sections above in order.
`start` is the table slot the source writes into, so fields guarded by a
clear flag keep their previous value. -/
def parse_sps_fields (start : EVCParserSPS) : BitM EVCParserSPS := do
  let a ← parse_sps_a start
  let b ← parse_sps_b a
  let c ← parse_sps_c b
  let d ← parse_sps_d c
  let e ← parse_sps_e d
  parse_sps_f e

/-- Embeds `parse_sps` of `evc_parser.c`: reads the id from the payload,
fails when it is at least `EVC_MAX_SPS_COUNT`, then parses the payload
into the table slot of that id.  Returns the new record and the id. -/
def parse_sps (bs : List Nat) (bs_size : Nat) (tbl : Nat → EVCParserSPS) :
    Option (EVCParserSPS × Nat) := do
  let (id, gb) ← get_ue_golomb (init_get_bits8 bs bs_size)
  if EVC_MAX_SPS_COUNT ≤ id then none
  else do
    let (sps, _) ← parse_sps_fields { tbl id with sps_seq_parameter_set_id := id } gb
    pure (sps, id)

/-- Embeds `EVCParserPPS` of the sources. -/
structure EVCParserPPS where
  pps_pic_parameter_set_id : Nat := 0
  pps_seq_parameter_set_id : Nat := 0
  num_ref_idx_default_active_minus1_0 : Nat := 0
  num_ref_idx_default_active_minus1_1 : Nat := 0
  additional_lt_poc_lsb_len : Nat := 0
  rpl1_idx_present_flag : Nat := 0
  single_tile_in_pic_flag : Nat := 0
  num_tile_columns_minus1 : Nat := 0
  num_tile_rows_minus1 : Nat := 0
  uniform_tile_spacing_flag : Nat := 0
  tile_column_width_minus1 : List Nat := []
  tile_row_height_minus1 : List Nat := []
  loop_filter_across_tiles_enabled_flag : Nat := 0
  tile_offset_len_minus1 : Nat := 0
  tile_id_len_minus1 : Nat := 0
  explicit_tile_id_flag : Nat := 0
  tile_id_val : List (List Nat) := []
  pic_dra_enabled_flag : Nat := 0
  pic_dra_aps_id : Nat := 0
  arbitrary_slice_present_flag : Nat := 0
  constrained_intra_pred_flag : Nat := 0
  cu_qp_delta_enabled_flag : Nat := 0
  log2_cu_qp_delta_area_minus6 : Nat := 0

def pps_mk_a (start : EVCParserPPS) (sid n0 n1 alt rpl1 stp : Nat) : EVCParserPPS :=
  { start with
    pps_seq_parameter_set_id := sid,
    num_ref_idx_default_active_minus1_0 := n0,
    num_ref_idx_default_active_minus1_1 := n1,
    additional_lt_poc_lsb_len := alt, rpl1_idx_present_flag := rpl1,
    single_tile_in_pic_flag := stp }

/-- Section of `parse_pps`: the referenced SPS id (not range-checked
here; the wrapper checks it as the source does), the default
reference-index counts and the single-tile flag. -/
def parse_pps_a (start : EVCParserPPS) : BitM EVCParserPPS := do
  let sid ← get_ue_golomb
  let n0 ← get_ue_golomb
  let n1 ← get_ue_golomb
  let alt ← get_ue_golomb
  let rpl1 ← get_bits1
  let stp ← get_bits1
  pure (pps_mk_a start sid n0 n1 alt rpl1 stp)

def pps_mk_b (start : EVCParserPPS) (cols rows uni : Nat) (cw rh : List Nat)
    (lf toff : Nat) : EVCParserPPS :=
  { start with
    num_tile_columns_minus1 := cols, num_tile_rows_minus1 := rows,
    uniform_tile_spacing_flag := uni, tile_column_width_minus1 := cw,
    tile_row_height_minus1 := rh, loop_filter_across_tiles_enabled_flag := lf,
    tile_offset_len_minus1 := toff }

/-- Section of `parse_pps`: the tiling geometry, read only when
`single_tile_in_pic_flag` is clear. -/
def parse_pps_b (start : EVCParserPPS) : BitM EVCParserPPS := do
  if start.single_tile_in_pic_flag = 0 then do
    let cols ← get_ue_golomb
    let rows ← get_ue_golomb
    let uni ← get_bits1
    let mut cw := start.tile_column_width_minus1
    let mut rh := start.tile_row_height_minus1
    if uni = 0 then
      cw := []
      for _ in List.range cols do
        let v ← get_ue_golomb
        cw := cw ++ [v]
      rh := []
      for _ in List.range rows do
        let v ← get_ue_golomb
        rh := rh ++ [v]
    let lf ← get_bits1
    let toff ← get_ue_golomb
    pure (pps_mk_b start cols rows uni cw rh lf toff)
  else
    pure start

def pps_mk_c (start : EVCParserPPS) (tlen exp : Nat) (tv : List (List Nat))
    (dra aps arb cip cqd area : Nat) : EVCParserPPS :=
  { start with
    tile_id_len_minus1 := tlen, explicit_tile_id_flag := exp, tile_id_val := tv,
    pic_dra_enabled_flag := dra, pic_dra_aps_id := aps,
    arbitrary_slice_present_flag := arb, constrained_intra_pred_flag := cip,
    cu_qp_delta_enabled_flag := cqd, log2_cu_qp_delta_area_minus6 := area }

/-- Section of `parse_pps`: tile id length, the optional explicit tile id
matrix (its bounds come from the record, so a stale
`num_tile_rows_minus1` of a previous parse would be used, exactly as in
the source), the DRA, arbitrary-slice, constrained-intra-pred and
cu-qp-delta fields. -/
def parse_pps_c (start : EVCParserPPS) : BitM EVCParserPPS := do
  let tlen ← get_ue_golomb
  let exp ← get_bits1
  let mut tv := start.tile_id_val
  if exp ≠ 0 then
    tv := []
    for _ in List.range (start.num_tile_rows_minus1 + 1) do
      let mut row : List Nat := []
      for _ in List.range (start.num_tile_columns_minus1 + 1) do
        let v ← get_bits (tlen + 1)
        row := row ++ [v]
      tv := tv ++ [row]
  let dra ← get_bits1
  let aps ← if dra ≠ 0 then get_bits 5 else pure start.pic_dra_aps_id
  let arb ← get_bits1
  let cip ← get_bits1
  let cqd ← get_bits1
  let area ← if cqd ≠ 0 then get_ue_golomb else pure start.log2_cu_qp_delta_area_minus6
  pure (pps_mk_c start tlen exp tv dra aps arb cip cqd area)

/-- Embeds the field-reading part of `parse_pps` of `evc_parser.c`
(identical to `ff_evc_parse_pps` of `evc_parse.c`), after the id has
been read: the three sections above in order.  The `tile_id_len_minus1`
update of section c happens after section b, matching the source order;
the explicit-tile-id bounds therefore use the values read in section b
when `single_tile_in_pic_flag` is clear. -/
def parse_pps_fields (start : EVCParserPPS) : BitM EVCParserPPS := do
  let a ← parse_pps_a start
  let b ← parse_pps_b a
  parse_pps_c b

/-- Embeds `ff_evc_parse_pps` of `evc_parse.c` over the pointer-table
context: the id fails only when strictly greater than
`EVC_MAX_PPS_COUNT` (the source comparison is `>`), a missing slot is
freshly allocated (modelled zero-initialised), and the referenced
`pps_seq_parameter_set_id` fails when at least `EVC_MAX_SPS_COUNT`.
No check that the referenced SPS is actually present is performed.
Returns the parsed record.  The source mutates the slot in place even
on the late sps-id failure; the claims below only concern the returned
value and the stored record on success, so the wrapper returns the
record on success and `none` on failure. -/
def ff_evc_parse_pps (bs : List Nat) (bs_size : Nat)
    (tbl : Nat → Option EVCParserPPS) : Option EVCParserPPS := do
  let (id, gb) ← get_ue_golomb (init_get_bits8 bs bs_size)
  if EVC_MAX_PPS_COUNT < id then none
  else do
    let start := (tbl id).getD {}
    let (ppsA, gb) ← parse_pps_a { start with pps_pic_parameter_set_id := id } gb
    if EVC_MAX_SPS_COUNT ≤ ppsA.pps_seq_parameter_set_id then none
    else do
      let (ppsB, gb) ← parse_pps_b ppsA gb
      let (ppsC, _) ← parse_pps_c ppsB gb
      pure ppsC

/-- Embeds `parse_pps` of `evc_parser.c` over the value-table context of
that file; the logic is the same as `ff_evc_parse_pps`. -/
def parse_pps (bs : List Nat) (bs_size : Nat) (tbl : Nat → EVCParserPPS) :
    Option (EVCParserPPS × Nat) := do
  let (id, gb) ← get_ue_golomb (init_get_bits8 bs bs_size)
  if EVC_MAX_PPS_COUNT < id then none
  else do
    let (ppsA, gb) ← parse_pps_a { tbl id with pps_pic_parameter_set_id := id } gb
    if EVC_MAX_SPS_COUNT ≤ ppsA.pps_seq_parameter_set_id then none
    else do
      let (ppsB, gb) ← parse_pps_b ppsA gb
      let (ppsC, _) ← parse_pps_c ppsB gb
      pure (ppsC, id)

/-- Embeds `EVCParserSliceHeader` of the sources. -/
structure EVCParserSliceHeader where
  slice_pic_parameter_set_id : Nat := 0
  single_tile_in_slice_flag : Nat := 0
  first_tile_id : Nat := 0
  arbitrary_slice_flag : Nat := 0
  last_tile_id : Nat := 0
  num_remaining_tiles_in_slice_minus1 : Nat := 0
  delta_tile_id_minus1 : List Nat := []
  slice_type : Nat := 0
  no_output_of_prior_pics_flag : Nat := 0
  mmvd_group_enable_flag : Nat := 0
  slice_alf_enabled_flag : Nat := 0
  slice_alf_luma_aps_id : Nat := 0
  slice_alf_map_flag : Nat := 0
  slice_alf_chroma_idc : Nat := 0
  slice_alf_chroma_aps_id : Nat := 0
  slice_alf_chroma_map_flag : Nat := 0
  slice_alf_chroma2_aps_id : Nat := 0
  slice_alf_chroma2_map_flag : Nat := 0
  slice_pic_order_cnt_lsb : Nat := 0

def sh_mk_a (start : EVCParserSliceHeader) (sts ft arb lt nrt : Nat)
    (dt : List Nat) : EVCParserSliceHeader :=
  { start with
    single_tile_in_slice_flag := sts, first_tile_id := ft,
    arbitrary_slice_flag := arb, last_tile_id := lt,
    num_remaining_tiles_in_slice_minus1 := nrt, delta_tile_id_minus1 := dt }

/-- Section of `parse_slice_header`: the tile addressing fields.  When
the slice is not single-tile and the PPS does not allow arbitrary
slices, the stale `arbitrary_slice_flag` of the previous slice in this
slot decides which branch is read, exactly as in the source. -/
def parse_slice_header_a (start : EVCParserSliceHeader) (pps : EVCParserPPS) :
    BitM EVCParserSliceHeader := do
  let (sts, ft) ←
    if pps.single_tile_in_pic_flag = 0 then do
      let sts ← get_bits1
      let ft ← get_bits (pps.tile_id_len_minus1 + 1)
      pure (sts, ft)
    else pure (1, start.first_tile_id)
  if sts = 0 then do
    let arb ← if pps.arbitrary_slice_present_flag ≠ 0 then get_bits1
              else pure start.arbitrary_slice_flag
    if arb = 0 then do
      let lt ← get_bits (pps.tile_id_len_minus1 + 1)
      pure (sh_mk_a start sts ft arb lt
            start.num_remaining_tiles_in_slice_minus1 start.delta_tile_id_minus1)
    else do
      let nrt ← get_ue_golomb
      let mut dt : List Nat := []
      for _ in List.range (nrt + 1) do
        let v ← get_ue_golomb
        dt := dt ++ [v]
      pure (sh_mk_a start sts ft arb start.last_tile_id nrt dt)
  else
    pure (sh_mk_a start sts ft start.arbitrary_slice_flag start.last_tile_id
          start.num_remaining_tiles_in_slice_minus1 start.delta_tile_id_minus1)

def sh_mk_b (start : EVCParserSliceHeader) (st noop mmvd : Nat) :
    EVCParserSliceHeader :=
  { start with slice_type := st, no_output_of_prior_pics_flag := noop,
               mmvd_group_enable_flag := mmvd }

/-- Section of `parse_slice_header`: slice type, the IDR-only
no-output-of-prior-pics flag and the MMVD group flag. -/
def parse_slice_header_b (start : EVCParserSliceHeader) (sps : EVCParserSPS)
    (nalu_type : Int) : BitM EVCParserSliceHeader := do
  let st ← get_ue_golomb
  let noop ← if nalu_type = EVC_IDR_NUT then get_bits1
             else pure start.no_output_of_prior_pics_flag
  let mmvd ← if sps.sps_mmvd_flag ≠ 0 ∧ (st = EVC_SLICE_TYPE_B ∨ st = EVC_SLICE_TYPE_P)
             then get_bits1 else pure 0
  pure (sh_mk_b start st noop mmvd)

def sh_mk_c (start : EVCParserSliceHeader)
    (alf luma map idc caps cmap c2aps c2map : Nat) : EVCParserSliceHeader :=
  { start with
    slice_alf_enabled_flag := alf, slice_alf_luma_aps_id := luma,
    slice_alf_map_flag := map, slice_alf_chroma_idc := idc,
    slice_alf_chroma_aps_id := caps, slice_alf_chroma_map_flag := cmap,
    slice_alf_chroma2_aps_id := c2aps, slice_alf_chroma2_map_flag := c2map }

/-- Section of `parse_slice_header`: the ALF sub-tree.  For
`ChromaArrayType = 3` the chroma enables are derived from the
`slice_alf_chroma_idc` value available before the conditional re-read,
exactly as in the source (a stale value from the slot is used when
`slice_alf_enabled_flag` is clear). -/
def parse_slice_header_c (start : EVCParserSliceHeader) (sps : EVCParserSPS) :
    BitM EVCParserSliceHeader := do
  if sps.sps_alf_flag ≠ 0 then do
    let cat := sps.chroma_format_idc
    let alf ← get_bits1
    let (luma, map, idc1, caps1) ←
      if alf ≠ 0 then do
        let luma ← get_bits 5
        let map ← get_bits1
        let idc ← get_bits 2
        let caps ← if (cat = 1 ∨ cat = 2) ∧ 0 < idc then get_bits 5
                   else pure start.slice_alf_chroma_aps_id
        pure (luma, map, idc, caps)
      else
        pure (start.slice_alf_luma_aps_id, start.slice_alf_map_flag,
              start.slice_alf_chroma_idc, start.slice_alf_chroma_aps_id)
    if cat = 3 then do
      let cEn := idc1 = 1 ∨ idc1 = 3
      let c2En := idc1 = 2 ∨ idc1 = 3
      let idc2 ← if alf = 0 then get_bits 2 else pure idc1
      let (caps2, cmap) ←
        if cEn then do
          let a ← get_bits 5
          let m ← get_bits1
          pure (a, m)
        else pure (caps1, start.slice_alf_chroma_map_flag)
      let (c2aps, c2map) ←
        if c2En then do
          let a ← get_bits 5
          let m ← get_bits1
          pure (a, m)
        else pure (start.slice_alf_chroma2_aps_id, start.slice_alf_chroma2_map_flag)
      pure (sh_mk_c start alf luma map idc2 caps2 cmap c2aps c2map)
    else
      pure (sh_mk_c start alf luma map idc1 caps1 start.slice_alf_chroma_map_flag
            start.slice_alf_chroma2_aps_id start.slice_alf_chroma2_map_flag)
  else
    pure start

/-- Section of `parse_slice_header`: the POC lsb, read for non-IDR
slices when `sps_pocs_flag` is set, as a fixed-width field of
`log2_max_pic_order_cnt_lsb_minus4 + 4` bits. -/
def parse_slice_header_d (start : EVCParserSliceHeader) (sps : EVCParserSPS)
    (nalu_type : Int) : BitM EVCParserSliceHeader := do
  if nalu_type ≠ EVC_IDR_NUT ∧ sps.sps_pocs_flag ≠ 0 then do
    let lsb ← get_bits (sps.log2_max_pic_order_cnt_lsb_minus4 + 4)
    pure { start with slice_pic_order_cnt_lsb := lsb }
  else
    pure start

/-- Embeds the field-reading part of `parse_slice_header` (identical in
`evc_parser.c` and `evc_parse.c`), after the pps id has been read and
the PPS/SPS records have been fetched: the four sections above in
order. -/
def parse_slice_header_fields (start : EVCParserSliceHeader)
    (pps : EVCParserPPS) (sps : EVCParserSPS) (nalu_type : Int) :
    BitM EVCParserSliceHeader := do
  let a ← parse_slice_header_a start pps
  let b ← parse_slice_header_b a sps nalu_type
  let c ← parse_slice_header_c b sps
  parse_slice_header_d c sps nalu_type

/-- Embeds `parse_slice_header` of `evc_parser.c` over the value-table
context: the slice header slot, the PPS and the SPS are all fetched at
the index given by the slice's own `slice_pic_parameter_set_id`; no
presence check is possible on the value tables. -/
def parse_slice_header (bs : List Nat) (bs_size : Nat)
    (shTbl : Nat → EVCParserSliceHeader) (ppsTbl : Nat → EVCParserPPS)
    (spsTbl : Nat → EVCParserSPS) (nalu_type : Int) :
    Option (EVCParserSliceHeader × Nat) := do
  let (id, gb) ← get_ue_golomb (init_get_bits8 bs bs_size)
  if EVC_MAX_PPS_COUNT ≤ id then none
  else do
    let (sh, _) ← parse_slice_header_fields
      { shTbl id with slice_pic_parameter_set_id := id }
      (ppsTbl id) (spsTbl id) nalu_type gb
    pure (sh, id)

/-- Embeds `ff_evc_parse_slice_header` of `evc_parse.c` over the
pointer-table context: the slice header slot, the PPS and the SPS are
all fetched at the index given by the slice's own
`slice_pic_parameter_set_id`; a missing PPS or a missing SPS at that
index fails the parse.  The PPS's own `pps_seq_parameter_set_id` is
never consulted. -/
def ff_evc_parse_slice_header (bs : List Nat) (bs_size : Nat)
    (shTbl : Nat → Option EVCParserSliceHeader)
    (ppsTbl : Nat → Option EVCParserPPS)
    (spsTbl : Nat → Option EVCParserSPS) (nalu_type : Int) :
    Option EVCParserSliceHeader := do
  let (id, gb) ← get_ue_golomb (init_get_bits8 bs bs_size)
  if EVC_MAX_PPS_COUNT ≤ id then none
  else do
    let start := (shTbl id).getD {}
    let pps ← ppsTbl id
    let sps ← spsTbl id
    let (sh, _) ← parse_slice_header_fields
      { start with slice_pic_parameter_set_id := id } pps sps nalu_type gb
    pure sh

/-- Embeds `EVCParserPoc` of the sources. -/
structure EVCParserPoc where
  PicOrderCntVal : Int := 0
  prevPicOrderCntVal : Int := 0
  DocOffset : Int := 0
deriving DecidableEq

/-- Embeds the explicit-POC branch of `parse_nal_unit` (identical in
`evc_parser.c` and `evc_frame_merge_bsf.c`): `prevPicOrderCntVal` takes
the old `PicOrderCntVal`; for IDR the msb is 0; otherwise the msb is
derived from the previous value with the half-range comparisons of the
source; the C mask operation `PicOrderCntVal & (MaxPicOrderCntLsb - 1)`
on a two's-complement `int` is `Int.land`. -/
def poc_derive_explicit (log2_max_pic_order_cnt_lsb_minus4 : Nat)
    (nalu_type : Int) (slice_pic_order_cnt_lsb : Nat) (poc : EVCParserPoc) :
    EVCParserPoc :=
  let msb : Int :=
    if nalu_type = EVC_IDR_NUT then 0
    else
      let MaxPicOrderCntLsb : Int := 2 ^ (log2_max_pic_order_cnt_lsb_minus4 + 4)
      let prevPicOrderCntLsb := Int.land poc.PicOrderCntVal (MaxPicOrderCntLsb - 1)
      let prevPicOrderCntMsb := poc.PicOrderCntVal - prevPicOrderCntLsb
      if (slice_pic_order_cnt_lsb : Int) < prevPicOrderCntLsb ∧
         MaxPicOrderCntLsb / 2 ≤ prevPicOrderCntLsb - (slice_pic_order_cnt_lsb : Int) then
        prevPicOrderCntMsb + MaxPicOrderCntLsb
      else if prevPicOrderCntLsb < (slice_pic_order_cnt_lsb : Int) ∧
              MaxPicOrderCntLsb / 2 < (slice_pic_order_cnt_lsb : Int) - prevPicOrderCntLsb then
        prevPicOrderCntMsb - MaxPicOrderCntLsb
      else
        prevPicOrderCntMsb
  { poc with prevPicOrderCntVal := poc.PicOrderCntVal,
             PicOrderCntVal := msb + (slice_pic_order_cnt_lsb : Int) }

/-- Base-2 integer logarithm (floor), written with explicit fuel so that
it evaluates by kernel reduction; `ilog2_fuel n n` is exact for every
`n`. -/
def ilog2_fuel : Nat → Nat → Nat
  | 0, _ => 0
  | fuel + 1, n => if n < 2 then 0 else 1 + ilog2_fuel fuel (n / 2)

/-- Embeds the C `(int)log2(x)` on positive integers: the floor base-2
logarithm. -/
def ilog2 (n : Nat) : Nat := ilog2_fuel n n

/-- Embeds `1 + (int)log2(DocOffset)` of the implicit-POC branch: the
expected temporal id of a decoding-order offset (0 at offset 0). -/
def expected_temporal_id (d : Nat) : Nat :=
  if d = 0 then 0 else 1 + ilog2 d

/-- Embeds the single `DocOffset` advance of the implicit-POC loop:
increment modulo the sub-GOP length. -/
def doc_offset_step (sub_gop d : Nat) : Nat := (d + 1) % sub_gop

/-- Embeds the `while (tid != ExpectedTemporalId)` loop of the
implicit-POC branch, with explicit fuel: each step advances `DocOffset`
by `doc_offset_step` and recomputes `expected_temporal_id`.  The C loop
has no bound; `none` marks that the loop has not reached the target
within `fuel` steps (the offsets cycle with period `sub_gop`, so fuel
`sub_gop` separates termination from divergence). -/
def poc_doc_loop (fuel : Nat) (sub_gop tid : Nat) (d e : Nat) : Option Nat :=
  if e = tid then some d
  else
    match fuel with
    | 0 => none
    | f + 1 =>
      let d2 := doc_offset_step sub_gop d
      poc_doc_loop f sub_gop tid d2 (expected_temporal_id d2)

/-- Embeds the implicit-POC branch of `parse_nal_unit` (identical in
`evc_parser.c` and `evc_frame_merge_bsf.c`).  IDR resets the state;
temporal id 0 advances by one sub-GOP; otherwise the `DocOffset` loop
runs and the POC offset is the truncation of
`SubGopLength * ((2*DocOffset+1)/2^tid - 2)` (the C floating-point
expression is exact at these operand sizes, so it is the truncated
rational).  `none` stands for the non-terminating C loop. -/
def poc_derive_implicit (log2_sub_gop_length : Nat) (nalu_type : Int)
    (tid : Nat) (poc : EVCParserPoc) : Option EVCParserPoc :=
  if nalu_type = EVC_IDR_NUT then
    some { poc with PicOrderCntVal := 0, DocOffset := -1 }
  else
    let SubGopLength : Int := 2 ^ log2_sub_gop_length
    if tid = 0 then
      let v := poc.prevPicOrderCntVal + SubGopLength
      some { PicOrderCntVal := v, prevPicOrderCntVal := v, DocOffset := 0 }
    else
      let d0 : Int := (poc.DocOffset + 1).tmod SubGopLength
      let prev2 : Int :=
        if d0 = 0 then poc.prevPicOrderCntVal + SubGopLength
        else poc.prevPicOrderCntVal
      let subg : Nat := 2 ^ log2_sub_gop_length
      match poc_doc_loop subg subg tid d0.toNat (expected_temporal_id d0.toNat) with
      | none => none
      | some d =>
        let PocOffset : Int :=
          Int.tdiv (SubGopLength * (2 * (d : Int) + 1) - 2 ^ (tid + 1) * SubGopLength)
            (2 ^ tid)
        some { PicOrderCntVal := prev2 + PocOffset, prevPicOrderCntVal := prev2,
               DocOffset := (d : Int) }

/-- Embeds `end_of_access_unit_found` (identical in `evc_parser.c` over
`avctx->profile` and in `evc_frame_merge_bsf.c` over `ctx->profile`):
profile 0 terminates on any slice; any other profile terminates on IDR,
and on a non-IDR slice only when the POC value differs from the
previous one. -/
def end_of_access_unit_found (profile : Int) (nalu_type : Int)
    (poc : EVCParserPoc) : Bool :=
  if profile = 0 then
    nalu_type = EVC_NOIDR_NUT ∨ nalu_type = EVC_IDR_NUT
  else
    if nalu_type = EVC_NOIDR_NUT then
      poc.PicOrderCntVal ≠ poc.prevPicOrderCntVal
    else
      nalu_type = EVC_IDR_NUT

/-- Embeds `EVCParserContext` of `evc_parser.c` together with the parts
of the surrounding codec contexts the parser reads and writes: the
value tables of parameter sets, the fragmentation bookkeeping, the POC
state, `avctx->profile`, and the bytes held by the `ParseContext`
combination buffer (`pc->buffer`, of length `pc->index`).  Display-only
outputs of the parser (picture type, dimensions, delay, pixel format)
are not modelled. -/
structure EVCState where
  sps : Nat → EVCParserSPS := fun _ => {}
  pps : Nat → EVCParserPPS := fun _ => {}
  slice_header : Nat → EVCParserSliceHeader := fun _ => {}
  to_read : Nat := 0
  bytes_read : Nat := 0
  incomplete_nalu_prefix_read : Bool := false
  incomplete_nalu_read : Bool := false
  nuh_temporal_id : Nat := 0
  nalu_prefix_assembled : Bool := false
  nalu_type : Int := 0
  nalu_size : Nat := 0
  poc : EVCParserPoc := {}
  profile : Int := FF_PROFILE_UNKNOWN
  pcBuffer : List Nat := []

/-- Embeds `parse_nal_unit` of `evc_parser.c`.  The boolean is `true`
when the source returns 0; any negative return (invalid size, invalid
type or temporal id, parse failure, unsupported chroma format) is
`false`, with all side effects performed up to that point kept, as in
the source.  For the non-IDR implicit-POC slice whose `DocOffset` loop
does not terminate, the source hangs; that case is mapped to `false`. -/
def parse_nal_unit (st : EVCState) (buf : List Nat) (buf_size : Nat) :
    EVCState × Bool :=
  if buf_size = 0 then (st, false)
  else
    let nalu_type := ff_evc_get_nalu_type buf buf_size
    if nalu_type < EVC_NOIDR_NUT ∨ EVC_UNSPEC_NUT62 < nalu_type then (st, false)
    else
      let st := { st with nalu_type := nalu_type }
      let tid := ff_evc_get_temporal_id buf buf_size
      if tid < 0 then (st, false)
      else
        let st := { st with nuh_temporal_id := tid.toNat }
        let data := buf.drop EVC_NALU_HEADER_SIZE
        if nalu_type = EVC_SPS_NUT then
          match parse_sps data buf_size st.sps with
          | none => (st, false)
          | some (sps, id) =>
            let st := { st with
              sps := fun i => if i = id then sps else st.sps i,
              profile := if sps.profile_idc = 1 then FF_PROFILE_EVC_MAIN
                         else FF_PROFILE_EVC_BASELINE }
            if sps.chroma_format_idc = 1 then (st, true) else (st, false)
        else if nalu_type = EVC_PPS_NUT then
          match parse_pps data buf_size st.pps with
          | none => (st, false)
          | some (pps, id) =>
            ({ st with pps := fun i => if i = id then pps else st.pps i }, true)
        else if nalu_type = EVC_SEI_NUT ∨ nalu_type = EVC_APS_NUT ∨
                nalu_type = EVC_FD_NUT then
          (st, true)
        else if nalu_type = EVC_IDR_NUT ∨ nalu_type = EVC_NOIDR_NUT then
          match parse_slice_header data buf_size st.slice_header st.pps st.sps
              nalu_type with
          | none => (st, false)
          | some (sh, id) =>
            let st := { st with
              slice_header := fun i => if i = id then sh else st.slice_header i }
            let sps := st.sps id
            if sps.sps_pocs_flag ≠ 0 then
              let poc2 := poc_derive_explicit sps.log2_max_pic_order_cnt_lsb_minus4
                nalu_type sh.slice_pic_order_cnt_lsb st.poc
              ({ st with poc := poc2 }, true)
            else
              match poc_derive_implicit sps.log2_sub_gop_length nalu_type
                  tid.toNat st.poc with
              | none => (st, false)
              | some poc2 => ({ st with poc := poc2 }, true)
        else
          (st, true)

/-- Embeds `evc_assemble_nalu_prefix` of `evc_parser.c`: the 4 prefix
bytes are taken from `pc->buffer` for indices below `pc->index` and
from the current chunk for the rest. -/
def evc_assemble_nalu_prefix_bytes (pcBuf data : List Nat) : List Nat :=
  (List.range EVC_NALU_LENGTH_PREFIX_SIZE).map fun i =>
    if i < pcBuf.length then pcBuf.getD i 0 else data.getD (i - pcBuf.length) 0

/-- Result of one `evc_find_frame_end` call: the position of the first
byte after the completed Access Unit inside the current chunk, the
END_NOT_FOUND marker, or AVERROR_INVALIDDATA. -/
inductive FindRes where
  | found : Nat → FindRes
  | needMore : FindRes
  | invalid : FindRes
deriving DecidableEq

mutual

/-- Embeds the `while (data_size > 0)` loop of `evc_find_frame_end` of
`evc_parser.c`, with fuel bounding the number of iterations (the
wrapper passes enough fuel for every path that consumes input; the one
loop path that consumes nothing — owed bytes exhausted with neither
incomplete flag set — loops forever in the source and exhausts the
fuel here). -/
def evc_find_frame_end_go : Nat → EVCState → List Nat → EVCState × FindRes
  | 0, st, _ => (st, FindRes.needMore)
  | fuel + 1, st, data =>
    if data.length = 0 then (st, FindRes.needMore)
    else if st.to_read = 0 then
      if st.nalu_prefix_assembled then
        evc_find_frame_end_after_prefix fuel
          { st with nalu_prefix_assembled := false } data
      else
        if data.length < EVC_NALU_LENGTH_PREFIX_SIZE then
          ({ st with to_read := EVC_NALU_LENGTH_PREFIX_SIZE - data.length,
                     incomplete_nalu_prefix_read := true }, FindRes.needMore)
        else
          let nsz := ff_evc_read_nal_unit_length data data.length
          let st := { st with nalu_size := nsz,
                              bytes_read := st.bytes_read + EVC_NALU_LENGTH_PREFIX_SIZE }
          evc_find_frame_end_after_prefix fuel st
            (data.drop EVC_NALU_LENGTH_PREFIX_SIZE)
    else
      if st.to_read < data.length then
        if st.incomplete_nalu_prefix_read then
          let pfx := evc_assemble_nalu_prefix_bytes st.pcBuffer data
          let nsz := ff_evc_read_nal_unit_length pfx EVC_NALU_LENGTH_PREFIX_SIZE
          let consumed := st.to_read
          let st := { st with nalu_size := nsz,
                              bytes_read := st.bytes_read + st.to_read,
                              to_read := 0,
                              incomplete_nalu_prefix_read := false,
                              nalu_prefix_assembled := true }
          evc_find_frame_end_go fuel st (data.drop consumed)
        else if st.incomplete_nalu_read then
          let nalu := st.pcBuffer.drop st.bytes_read ++ data.take st.to_read
          match parse_nal_unit st nalu st.nalu_size with
          | (st2, false) => (st2, FindRes.invalid)
          | (st2, true) =>
            let st2 := { st2 with bytes_read := st2.bytes_read + st2.nalu_size,
                                  incomplete_nalu_read := false }
            if end_of_access_unit_found st2.profile st2.nalu_type st2.poc then
              let r := st2.to_read
              ({ st2 with to_read := 0, bytes_read := 0 }, FindRes.found r)
            else
              let consumed := st2.to_read
              evc_find_frame_end_go fuel { st2 with to_read := 0 }
                (data.drop consumed)
        else
          evc_find_frame_end_go fuel st data
      else
        ({ st with to_read := st.to_read - data.length }, FindRes.needMore)

/-- Embeds the part of the `evc_find_frame_end` loop body that follows a
complete length prefix: the `data_size < nalu_size` check, the
`parse_nal_unit` call and the Access-Unit-end decision (which returns
`ctx->bytes_read`, the full byte count of the Access Unit, as the
position of the next frame). -/
def evc_find_frame_end_after_prefix (fuel : Nat) (st : EVCState)
    (data : List Nat) : EVCState × FindRes :=
  if data.length < st.nalu_size then
    ({ st with to_read := st.nalu_size - data.length,
               incomplete_nalu_read := true }, FindRes.needMore)
  else
    match parse_nal_unit st data st.nalu_size with
    | (st2, false) => (st2, FindRes.invalid)
    | (st2, true) =>
      let st2 := { st2 with bytes_read := st2.bytes_read + st2.nalu_size }
      if end_of_access_unit_found st2.profile st2.nalu_type st2.poc then
        let r := st2.bytes_read
        ({ st2 with bytes_read := 0 }, FindRes.found r)
      else
        evc_find_frame_end_go fuel st2 (data.drop st2.nalu_size)

end

/-- Embeds `evc_find_frame_end` of `evc_parser.c`: runs the loop with
fuel that every input-consuming path respects (each pair of fuel levels
consumes at least one byte). -/
def evc_find_frame_end (st : EVCState) (data : List Nat) : EVCState × FindRes :=
  evc_find_frame_end_go (2 * data.length + 2) st data

/-- Result of one `evc_parse` call: the updated state, the emitted
Access Unit when one completed, and the number of input bytes the
caller must consume before calling again. -/
structure FeedOut where
  st : EVCState
  au : Option (List Nat)
  consumed : Nat

/-- Modelled from the spec: `evc_parse` of `evc_parser.c` combined with
the generic `ff_combine_frame` of `parser.c` (not among the sources).
On END_NOT_FOUND the chunk is appended to the combination buffer and
nothing is emitted; on a found position `r` the emitted Access Unit is
the buffered bytes followed by the first `r` bytes of the chunk, and
the buffer is cleared; a parse error emits nothing.  The caller then
advances by `consumed` bytes. -/
def evc_parse_step (st : EVCState) (chunk : List Nat) : FeedOut :=
  match evc_find_frame_end st chunk with
  | (st2, FindRes.needMore) =>
    { st := { st2 with pcBuffer := st2.pcBuffer ++ chunk }, au := none,
      consumed := chunk.length }
  | (st2, FindRes.found r) =>
    { st := { st2 with pcBuffer := [] }, au := some (st2.pcBuffer ++ chunk.take r),
      consumed := r }
  | (st2, FindRes.invalid) =>
    { st := st2, au := none, consumed := chunk.length }

/-- Modelled from the spec: the caller loop around `evc_parse` that
re-feeds the unconsumed remainder of a chunk until the parser asks for
more data, collecting the emitted Access Units in order. -/
def evc_feed_go : Nat → EVCState → List Nat → EVCState × List (List Nat)
  | 0, st, _ => (st, [])
  | fuel + 1, st, chunk =>
    let o := evc_parse_step st chunk
    match o.au with
    | none => (o.st, [])
    | some au =>
      let (st2, aus) := evc_feed_go fuel o.st (chunk.drop o.consumed)
      (st2, au :: aus)

/-- Modelled from the spec: feed one chunk, draining all complete
Access Units it yields. -/
def evc_feed (st : EVCState) (chunk : List Nat) : EVCState × List (List Nat) :=
  evc_feed_go (chunk.length + 1) st chunk

/-- Modelled from the spec: feed a sequence of chunks, concatenating the
emitted Access Units in order. -/
def evc_feed_chunks (st : EVCState) (chunks : List (List Nat)) :
    EVCState × List (List Nat) :=
  chunks.foldl
    (fun acc c =>
      let (st2, aus) := evc_feed acc.1 c
      (st2, acc.2 ++ aus))
    (st, [])

/-- Splits a stream into 1-byte chunks. -/
def one_byte_chunks (s : List Nat) : List (List Nat) := s.map fun b => [b]

/-- Embeds `AccessUnitBuffer` of `evc_frame_merge_bsf.c`.  The backing
allocation is the byte list `data`, whose length is the capacity; the
first `data_size` bytes are the meaningful content; reallocated bytes
beyond the preserved region are modelled as zero. -/
structure AccessUnitBuffer where
  data : List Nat
  data_size : Nat
  capacity : Nat

/-- Embeds the capacity-doubling loop of `evc_frame_merge_filter`
(`while (free_space < in->size)`): the capacity doubles until the free
space suffices, and the data is reallocated (preserving its bytes) at
the final capacity, with fuel bounding the iterations. -/
def au_buffer_grow : Nat → AccessUnitBuffer → Nat → AccessUnitBuffer
  | 0, buf, _ => buf
  | fuel + 1, buf, n =>
    if buf.capacity - buf.data_size < n then
      let cap2 := buf.capacity * 2
      let buf2 :=
        if n ≤ cap2 - buf.data_size then
          { buf with capacity := cap2,
                     data := buf.data ++ List.replicate (cap2 - buf.data.length) 0 }
        else
          { buf with capacity := cap2 }
      au_buffer_grow fuel buf2 n
    else buf

/-- Embeds the append step of `evc_frame_merge_filter`: grow until the
chunk fits, `memcpy` the chunk at offset `data_size`, and add its
length to `data_size`. -/
def au_buffer_append (buf : AccessUnitBuffer) (chunk : List Nat) :
    AccessUnitBuffer :=
  let g := au_buffer_grow (buf.data_size + chunk.length + 1) buf chunk.length
  { g with
    data := g.data.take g.data_size ++ chunk ++
            g.data.drop (g.data_size + chunk.length),
    data_size := g.data_size + chunk.length }

/-- Embeds the Access-Unit emission of `evc_frame_merge_filter`: the
emitted bytes are the first `data_size` bytes of the buffer
(`av_memdup`), and `data_size` is reset to 0 with the capacity kept. -/
def au_buffer_emit (buf : AccessUnitBuffer) : List Nat × AccessUnitBuffer :=
  (buf.data.take buf.data_size, { buf with data_size := 0 })

/-- C10: for every input buffer of fewer than 4 bytes the length-prefix
reader returns 0, the same value it returns for a well-formed 4-byte
prefix encoding the value 0, so the return value alone cannot separate
a truncated prefix from an explicit zero length; the function signals
no error in either case. -/
theorem ff_evc_read_nal_unit_length_short_buffer :
    (∀ (bs : List Nat) (n : Nat), n < 4 → ff_evc_read_nal_unit_length bs n = 0) ∧
    ff_evc_read_nal_unit_length [0, 0, 0, 0] 4 = 0 := by
  constructor
  · intro bs n h
    simp only [ff_evc_read_nal_unit_length, EVC_NALU_LENGTH_PREFIX_SIZE]
    rw [if_neg]
    omega
  · rfl

/-- Witness for C10's theorem at a concrete truncated buffer. -/
theorem ff_evc_read_nal_unit_length_short_buffer_witness :
    ff_evc_read_nal_unit_length [1, 2, 3] 3 = 0 ∧
    ff_evc_read_nal_unit_length [0, 0, 0, 0] 4 = 0 :=
  ⟨ff_evc_read_nal_unit_length_short_buffer.1 [1, 2, 3] 3 (by decide),
   ff_evc_read_nal_unit_length_short_buffer.2⟩

/-- C3: `end_of_access_unit_found` returns true under the Baseline
profile for every IDR or non-IDR slice NAL unit; under the Main profile
it returns true on IDR and, on a non-IDR slice, exactly when
`PicOrderCntVal` differs from `prevPicOrderCntVal`; it returns false on
every non-slice NAL unit under both profiles. -/
theorem end_of_access_unit_rules :
    ∀ (t : Int) (poc : EVCParserPoc),
      (t = EVC_NOIDR_NUT ∨ t = EVC_IDR_NUT →
        end_of_access_unit_found FF_PROFILE_EVC_BASELINE t poc = true) ∧
      (end_of_access_unit_found FF_PROFILE_EVC_MAIN EVC_IDR_NUT poc = true) ∧
      (end_of_access_unit_found FF_PROFILE_EVC_MAIN EVC_NOIDR_NUT poc =
        decide (poc.PicOrderCntVal ≠ poc.prevPicOrderCntVal)) ∧
      (t ≠ EVC_NOIDR_NUT → t ≠ EVC_IDR_NUT →
        end_of_access_unit_found FF_PROFILE_EVC_BASELINE t poc = false ∧
        end_of_access_unit_found FF_PROFILE_EVC_MAIN t poc = false) := by
  intro t poc
  refine ⟨?_, ?_, ?_, ?_⟩
  · rintro (rfl | rfl) <;> rfl
  · rfl
  · rfl
  · intro h0 h1
    simp only [EVC_NOIDR_NUT, EVC_IDR_NUT] at h0 h1
    constructor <;>
      simp [end_of_access_unit_found, FF_PROFILE_EVC_BASELINE, FF_PROFILE_EVC_MAIN,
            EVC_NOIDR_NUT, EVC_IDR_NUT, h0, h1]

/-- Witness for C3's theorem: an SPS NAL unit closes no Access Unit
under either profile, while an IDR closes one under Baseline. -/
theorem end_of_access_unit_rules_witness :
    (end_of_access_unit_found FF_PROFILE_EVC_BASELINE EVC_SPS_NUT {} = false ∧
     end_of_access_unit_found FF_PROFILE_EVC_MAIN EVC_SPS_NUT {} = false) ∧
    end_of_access_unit_found FF_PROFILE_EVC_BASELINE EVC_IDR_NUT {} = true :=
  ⟨(end_of_access_unit_rules EVC_SPS_NUT {}).2.2.2 (by decide) (by decide),
   (end_of_access_unit_rules EVC_IDR_NUT {}).1 (Or.inr rfl)⟩

/-- Fuel adequacy of the structural base-2 logarithm on powers of two. -/
theorem ilog2_fuel_two_pow : ∀ (fuel k : Nat), k < fuel → ilog2_fuel fuel (2 ^ k) = k := by
  intro fuel
  induction fuel with
  | zero => intro k hk; omega
  | succ f ih =>
    intro k hk
    match k with
    | 0 => simp [ilog2_fuel]
    | j + 1 =>
      have hge : ¬ 2 ^ (j + 1) < 2 := by
        have : 2 ^ 1 ≤ 2 ^ (j + 1) := Nat.pow_le_pow_right (by omega) (by omega)
        omega
      have hdiv : 2 ^ (j + 1) / 2 = 2 ^ j := by
        rw [pow_succ]
        exact Nat.mul_div_cancel _ (by omega)
      simp only [ilog2_fuel, if_neg hge, hdiv, ih j (by omega)]
      omega

/-- The structural base-2 logarithm is exact on powers of two. -/
theorem ilog2_two_pow (k : Nat) : ilog2 (2 ^ k) = k :=
  ilog2_fuel_two_pow (2 ^ k) k (Nat.lt_two_pow k)

/-- The expected temporal id of the offset `2^(t-1)` is `t`. -/
theorem expected_temporal_id_two_pow (t : Nat) (ht : 0 < t) :
    expected_temporal_id (2 ^ (t - 1)) = t := by
  have hne : 2 ^ (t - 1) ≠ 0 := Nat.pos_iff_ne_zero.mp (Nat.pos_pow_of_pos _ (by omega))
  simp only [expected_temporal_id, if_neg hne, ilog2_two_pow]
  omega

/-- The loop reaches the target whenever some offset within the fuel
bound has the expected temporal id. -/
theorem poc_doc_loop_reaches :
    ∀ (fuel m tid d : Nat), 0 < m → d < m →
      (∃ n, n ≤ fuel ∧ expected_temporal_id ((d + n) % m) = tid) →
      (poc_doc_loop fuel m tid d (expected_temporal_id d)).isSome = true := by
  intro fuel
  induction fuel with
  | zero =>
    intro m tid d hm hd ⟨n, hn, hexp⟩
    have hn0 : n = 0 := by omega
    subst hn0
    rw [Nat.add_zero, Nat.mod_eq_of_lt hd] at hexp
    simp [poc_doc_loop, hexp]
  | succ f ih =>
    intro m tid d hm hd ⟨n, hn, hexp⟩
    by_cases he : expected_temporal_id d = tid
    · simp [poc_doc_loop, he]
    · have hn0 : n ≠ 0 := by
        intro h
        subst h
        rw [Nat.add_zero, Nat.mod_eq_of_lt hd] at hexp
        exact he hexp
      rw [show poc_doc_loop (f + 1) m tid d (expected_temporal_id d)
            = poc_doc_loop f m tid ((d + 1) % m)
                (expected_temporal_id ((d + 1) % m)) from by
        simp [poc_doc_loop, he, doc_offset_step]]
      apply ih m tid _ hm (Nat.mod_lt _ hm)
      refine ⟨n - 1, by omega, ?_⟩
      rw [Nat.mod_add_mod, show d + 1 + (n - 1) = d + n from by omega]
      exact hexp

/-- C4 (amended): the implicit-POC `DocOffset` loop terminates for every
reachable offset below the sub-GOP length whenever the slice's temporal
id is at most `log2_sub_gop_length`; fuel equal to the sub-GOP length
suffices, because the offsets cycle through all residues.  (The claim
as stated, without the bound on the temporal id, is refuted by the
counterexample theorem below.) -/
theorem poc_doc_loop_terminates_below_log :
    ∀ (s tid d0 : Nat), 0 < tid → tid ≤ s → d0 < 2 ^ s →
      (poc_doc_loop (2 ^ s) (2 ^ s) tid d0 (expected_temporal_id d0)).isSome = true := by
  intro s tid d0 ht hts hd0
  have hm : 0 < 2 ^ s := Nat.pos_pow_of_pos _ (by omega)
  have hlt : 2 ^ (tid - 1) < 2 ^ s :=
    Nat.pow_lt_pow_right (by omega) (by omega)
  apply poc_doc_loop_reaches (2 ^ s) (2 ^ s) tid d0 hm hd0
  by_cases hc : d0 ≤ 2 ^ (tid - 1)
  · refine ⟨2 ^ (tid - 1) - d0, ?_, ?_⟩
    · generalize 2 ^ s = A at *
      generalize 2 ^ (tid - 1) = B at *
      omega
    · have : d0 + (2 ^ (tid - 1) - d0) = 2 ^ (tid - 1) := by omega
      rw [this, Nat.mod_eq_of_lt hlt]
      exact expected_temporal_id_two_pow tid ht
  · refine ⟨2 ^ s + 2 ^ (tid - 1) - d0, ?_, ?_⟩
    · generalize 2 ^ s = A at *
      generalize 2 ^ (tid - 1) = B at *
      omega
    · have : d0 + (2 ^ s + 2 ^ (tid - 1) - d0) = 2 ^ s + 2 ^ (tid - 1) := by
        generalize hA : 2 ^ s = A at *
        generalize hB : 2 ^ (tid - 1) = B at *
        omega
      rw [this, Nat.add_mod_left, Nat.mod_eq_of_lt hlt]
      exact expected_temporal_id_two_pow tid ht

/-- Witness for C4's amended theorem: sub-GOP length 4, temporal id 2,
offset 1. -/
theorem poc_doc_loop_terminates_below_log_witness :
    (poc_doc_loop (2 ^ 2) (2 ^ 2) 2 1 (expected_temporal_id 1)).isSome = true :=
  poc_doc_loop_terminates_below_log 2 2 1 (by decide) (by decide) (by decide)

/-- With a sub-GOP length of 2 and target temporal id 2, the loop never
reaches the target from any offset below 2, whatever the fuel. -/
theorem poc_doc_loop_lt_two :
    ∀ (fuel d : Nat), d < 2 →
      poc_doc_loop fuel 2 2 d (expected_temporal_id d) = none := by
  intro fuel
  induction fuel with
  | zero => intro d hd; interval_cases d <;> decide
  | succ f ih =>
    intro d hd
    interval_cases d
    · rw [show poc_doc_loop (f + 1) 2 2 0 (expected_temporal_id 0)
            = poc_doc_loop f 2 2 1 (expected_temporal_id 1) from by
        simp [poc_doc_loop, expected_temporal_id, ilog2, ilog2_fuel, doc_offset_step]]
      exact ih 1 (by omega)
    · rw [show poc_doc_loop (f + 1) 2 2 1 (expected_temporal_id 1)
            = poc_doc_loop f 2 2 0 (expected_temporal_id 0) from by
        simp [poc_doc_loop, expected_temporal_id, ilog2, ilog2_fuel, doc_offset_step]]
      exact ih 0 (by omega)

/-- C4 (counterexample): with `log2_sub_gop_length = 1` (sub-GOP 2) a
non-IDR slice of temporal id 2 arriving in the state an IDR leaves
behind (`DocOffset = -1`) makes the `DocOffset` loop cycle through
expected temporal ids 0 and 1 forever: the derivation is not total, and
no finite number of steps reaches `expected_tid = temporal_id`. -/
theorem poc_doc_loop_unreachable_tid :
    poc_derive_implicit 1 EVC_NOIDR_NUT 2
      { PicOrderCntVal := 0, prevPicOrderCntVal := 0, DocOffset := -1 } = none ∧
    ¬ ∃ fuel, (poc_doc_loop fuel 2 2 0 (expected_temporal_id 0)).isSome = true := by
  constructor
  · decide
  · rintro ⟨fuel, h⟩
    rw [poc_doc_loop_lt_two fuel 0 (by omega)] at h
    simp at h

/-- An all-ones mask XORed below its width is subtraction from the
mask. -/
theorem mask_xor_eq_sub : ∀ (k : Nat), ∀ a, a < 2 ^ k → (2 ^ k - 1) ^^^ a = 2 ^ k - 1 - a := by
  intro k
  induction k with
  | zero =>
    intro a ha
    have : a = 0 := by omega
    subst this
    simp
  | succ k ih =>
    intro a ha
    have hp : 2 ^ (k + 1) = 2 * 2 ^ k := by rw [pow_succ]; ring
    have hpos : 0 < 2 ^ k := Nat.pos_pow_of_pos _ (by omega)
    have hxdiv : ((2 ^ (k + 1) - 1) ^^^ a) / 2 = (2 ^ k - 1) ^^^ (a / 2) := by
      rw [Nat.xor_div_two]
      congr 1
      omega
    have ha2 : a / 2 < 2 ^ k := by omega
    have ih2 := ih (a / 2) ha2
    have hx2 : ((2 ^ (k + 1) - 1) ^^^ a) % 2 < 2 := Nat.mod_lt _ (by omega)
    have hm := @Nat.xor_mod_two_eq_one (2 ^ (k + 1) - 1) a
    have h1 : (2 ^ (k + 1) - 1) % 2 = 1 := by omega
    rw [h1] at hm
    have hdm := Nat.div_add_mod ((2 ^ (k + 1) - 1) ^^^ a) 2
    have hdma := Nat.div_add_mod a 2
    by_cases hb : a % 2 = 1
    · have : ¬ ((2 ^ (k + 1) - 1) ^^^ a) % 2 = 1 := by
        rw [hm]
        simp [hb]
      omega
    · have : ((2 ^ (k + 1) - 1) ^^^ a) % 2 = 1 := by
        rw [hm]
        simp [hb]
      omega

/-- Bitwise difference from an all-ones mask is the mask XOR the
reduced operand. -/
theorem ldiff_mask_eq (k m : Nat) :
    Nat.ldiff (2 ^ k - 1) m = (2 ^ k - 1) ^^^ (m % 2 ^ k) := by
  apply Nat.eq_of_testBit_eq
  intro i
  rw [Nat.testBit_ldiff, Nat.testBit_xor, Nat.testBit_mod_two_pow,
      Nat.testBit_two_pow_sub_one]
  by_cases h : i < k <;> by_cases hb : m.testBit i <;> simp [h, hb]

/-- Bitwise difference from an all-ones mask as arithmetic. -/
theorem nat_ldiff_mask (k m : Nat) :
    Nat.ldiff (2 ^ k - 1) m = 2 ^ k - 1 - m % 2 ^ k := by
  rw [ldiff_mask_eq, mask_xor_eq_sub k (m % 2 ^ k) (Nat.mod_lt _ (Nat.pos_pow_of_pos _ (by omega)))]

/-- The two's-complement AND with a power-of-two mask is the Euclidean
remainder, for negative integers as well. -/
theorem int_land_two_pow_sub_one (x : Int) (k : Nat) :
    Int.land x ((2 : Int) ^ k - 1) = x % (2 : Int) ^ k := by
  have hone : 1 ≤ 2 ^ k := Nat.one_le_two_pow
  have hcast : ((2 : Int) ^ k - 1) = (((2 ^ k - 1 : Nat) : Int)) := by
    push_cast [hone]
    ring
  have hcast2 : ((2 : Int) ^ k) = (((2 ^ k : Nat) : Int)) := by push_cast; ring
  cases x with
  | ofNat m =>
    rw [hcast, hcast2]
    have hl : Int.land (Int.ofNat m) ((2 ^ k - 1 : Nat) : Int)
        = Int.ofNat (m &&& (2 ^ k - 1)) := rfl
    rw [hl, Nat.and_pow_two_sub_one_eq_mod]
    norm_cast
  | negSucc m =>
    have hmod : m % 2 ^ k < 2 ^ k := Nat.mod_lt _ (by positivity)
    have hdm := Nat.div_add_mod m (2 ^ k)
    rw [hcast, hcast2]
    have hl : Int.land (Int.negSucc m) ((2 ^ k - 1 : Nat) : Int)
        = Int.ofNat (Nat.ldiff (2 ^ k - 1) m) := rfl
    rw [hl, nat_ldiff_mask]
    have hr1 : ((2 ^ k - 1 - m % 2 ^ k : Nat) : Int)
        = ((2 ^ k : Nat) : Int) - 1 - ((m % 2 ^ k : Nat) : Int) := by
      rw [Nat.cast_sub (show m % 2 ^ k ≤ 2 ^ k - 1 by omega), Nat.cast_sub hone]
      norm_num
    have hm2 : ((2 ^ k : Nat) : Int) * ((m / 2 ^ k : Nat) : Int)
        + ((m % 2 ^ k : Nat) : Int) = (m : Int) := by
      exact_mod_cast congrArg (fun z : Nat => (z : Int)) hdm
    have key : Int.negSucc m
        = ((2 ^ k - 1 - m % 2 ^ k : Nat) : Int)
          + ((2 ^ k : Nat) : Int) * (-((m / 2 ^ k : Nat) : Int) - 1) := by
      rw [Int.negSucc_eq, hr1]
      linear_combination hm2
    have hlt2 : ((2 ^ k - 1 - m % 2 ^ k : Nat) : Int) < ((2 ^ k : Nat) : Int) := by
      have h3 : 2 ^ k - 1 - m % 2 ^ k < 2 ^ k := by omega
      exact_mod_cast h3
    rw [key, Int.add_mul_emod_self_left,
        Int.emod_eq_of_lt (Int.natCast_nonneg _) hlt2]
    show Int.ofNat _ = _
    norm_cast

/-- The explicit-POC derivation exactly as the specification words it:
`prev_lsb` is the previous value modulo `max_lsb`, `prev_msb` the
difference, and the msb is corrected by the two half-range comparisons
(at least `max_lsb/2` on the low side, strictly more than `max_lsb/2`
on the high side); for IDR the msb is 0. -/
def poc_explicit_spec (log2_max_pic_order_cnt_lsb_minus4 : Nat) (nalu_type : Int)
    (slice_pic_order_cnt_lsb : Nat) (poc : EVCParserPoc) : EVCParserPoc :=
  let max_lsb : Int := 2 ^ (log2_max_pic_order_cnt_lsb_minus4 + 4)
  let msb : Int :=
    if nalu_type = EVC_IDR_NUT then 0
    else
      let prev_lsb := poc.PicOrderCntVal % max_lsb
      let prev_msb := poc.PicOrderCntVal - prev_lsb
      if (slice_pic_order_cnt_lsb : Int) < prev_lsb ∧
         max_lsb / 2 ≤ prev_lsb - (slice_pic_order_cnt_lsb : Int) then
        prev_msb + max_lsb
      else if prev_lsb < (slice_pic_order_cnt_lsb : Int) ∧
              max_lsb / 2 < (slice_pic_order_cnt_lsb : Int) - prev_lsb then
        prev_msb - max_lsb
      else
        prev_msb
  { poc with prevPicOrderCntVal := poc.PicOrderCntVal,
             PicOrderCntVal := msb + (slice_pic_order_cnt_lsb : Int) }

/-- C2: in the explicit-POC branch the derived POC of every slice equals
`msb + slice.poc_lsb`, where, with `max_lsb = 2^(log2_max+4)`,
`prev_lsb = prev_val mod max_lsb` and `prev_msb = prev_val - prev_lsb`,
the msb is corrected upward when `poc_lsb < prev_lsb` and
`prev_lsb - poc_lsb >= max_lsb/2`, downward when `poc_lsb > prev_lsb`
and `poc_lsb - prev_lsb > max_lsb/2`, and kept otherwise — with exactly
those comparisons at the half-range boundary — and `msb = 0` for IDR:
the code's mask-based derivation coincides with this formula on every
state, temporal layer and lsb value. -/
theorem poc_derive_explicit_matches_spec :
    ∀ (l : Nat) (t : Int) (lsb : Nat) (poc : EVCParserPoc),
      poc_derive_explicit l t lsb poc = poc_explicit_spec l t lsb poc := by
  intro l t lsb poc
  simp only [poc_derive_explicit, poc_explicit_spec]
  rw [int_land_two_pow_sub_one poc.PicOrderCntVal (l + 4)]

/-- C7: reading a NAL unit header fails with InvalidData for every
buffer of fewer than 2 bytes and for every buffer whose bit 0
(forbidden_zero_bit) is set; otherwise the type read is
`((byte0 >> 1) & 0x3F) - 1`, which never exceeds 62 and is rejected by
the range check when negative, and the temporal id is
`(((byte0 << 8) | byte1) >> 6) & 7`. -/
theorem read_header_rules :
    ∀ (st : EVCState) (buf : List Nat) (n : Nat),
      (n < EVC_NALU_HEADER_SIZE → (parse_nal_unit st buf n).2 = false) ∧
      (buf.getD 0 0 &&& 0x80 ≠ 0 → (parse_nal_unit st buf n).2 = false) ∧
      (EVC_NALU_HEADER_SIZE ≤ n → buf.getD 0 0 &&& 0x80 = 0 →
        ff_evc_get_nalu_type buf n = (((buf.getD 0 0 >>> 1) &&& 0x3F : Nat) : Int) - 1 ∧
        ff_evc_get_nalu_type buf n ≤ 62 ∧
        ff_evc_get_temporal_id buf n =
          (((buf.getD 0 0 * 256 + buf.getD 1 0) >>> 6) &&& 0x7 : Nat) ∧
        (ff_evc_get_nalu_type buf n < 0 → (parse_nal_unit st buf n).2 = false)) := by
  intro st buf n
  refine ⟨?_, ?_, ?_⟩
  · intro hn
    simp only [EVC_NALU_HEADER_SIZE] at hn
    interval_cases n
    · simp [parse_nal_unit]
    · simp [parse_nal_unit, ff_evc_get_nalu_type, EVC_NALU_HEADER_SIZE,
            EVC_NOIDR_NUT, EVC_UNSPEC_NUT62]
  · intro hf
    rw [List.getD_eq_getElem?_getD] at hf
    by_cases hn : EVC_NALU_HEADER_SIZE ≤ n
    · have ht : ff_evc_get_nalu_type buf n = -1 := by
        simp [ff_evc_get_nalu_type, hn, hf]
      by_cases h0 : n = 0
      · simp [parse_nal_unit, h0]
      · simp [parse_nal_unit, h0, ht, EVC_NOIDR_NUT, EVC_UNSPEC_NUT62]
    · simp only [EVC_NALU_HEADER_SIZE] at hn
      have hn2 : n < 2 := by omega
      interval_cases n
      · simp [parse_nal_unit]
      · simp [parse_nal_unit, ff_evc_get_nalu_type, EVC_NALU_HEADER_SIZE,
              EVC_NOIDR_NUT, EVC_UNSPEC_NUT62]
  · intro hn hf
    rw [List.getD_eq_getElem?_getD] at hf
    have ht : ff_evc_get_nalu_type buf n
        = (((buf.getD 0 0 >>> 1) &&& 0x3F : Nat) : Int) - 1 := by
      simp [ff_evc_get_nalu_type, hn, hf]
    refine ⟨ht, ?_, ?_, ?_⟩
    · rw [ht]
      have hb : (buf.getD 0 0 >>> 1) &&& 0x3F ≤ 63 := Nat.and_le_right
      omega
    · simp [ff_evc_get_temporal_id, hn, hf]
    · intro hneg
      have h0 : n ≠ 0 := by
        simp only [EVC_NALU_HEADER_SIZE] at hn
        omega
      simp [parse_nal_unit, h0, EVC_NOIDR_NUT, EVC_UNSPEC_NUT62, hneg]

/-- Witness for C7's theorem: the forbidden bit forces a failure, and a
well-formed IDR header yields type 1 and temporal id 1. -/
theorem read_header_rules_witness :
    (parse_nal_unit {} [0x80, 0] 2).2 = false ∧
    ff_evc_get_temporal_id [4, 0x40] 2 = 1 :=
  ⟨(read_header_rules {} [0x80, 0] 2).2.1 (by decide), by
    have h := ((read_header_rules {} [4, 0x40] 2).2.2 (by decide) (by decide)).2.2.1
    simpa using h⟩

/-- C9: slice-header parsing resolves both the PPS and the SPS by
indexing the tables with the slice's own pps id: the result is
unchanged under any modification of the SPS table away from that index
(in particular the stored PPS's `pps_seq_parameter_set_id` is never
consulted), and the pointer-table variant fails when the SPS at the
pps-id index is absent, regardless of any SPS the PPS references. -/
theorem slice_header_resolves_by_pps_id :
    ∀ (bs : List Nat) (n : Nat) (nalu : Int) (pid : Nat) (gb : GetBitContext)
      (shT : Nat → Option EVCParserSliceHeader) (ppT : Nat → Option EVCParserPPS)
      (spT spT2 : Nat → Option EVCParserSPS),
      get_ue_golomb (init_get_bits8 bs n) = some (pid, gb) →
      (spT pid = spT2 pid →
        ff_evc_parse_slice_header bs n shT ppT spT nalu
          = ff_evc_parse_slice_header bs n shT ppT spT2 nalu) ∧
      (∀ pps, ppT pid = some pps → spT pid = none →
        ff_evc_parse_slice_header bs n shT ppT spT nalu = none) := by
  intro bs n nalu pid gb shT ppT spT spT2 hue
  constructor
  · intro hagree
    simp only [ff_evc_parse_slice_header, hue, Option.bind_eq_bind, Option.some_bind]
    rw [hagree]
  · intro pps hpp hsp
    simp only [ff_evc_parse_slice_header, hue, Option.bind_eq_bind, Option.some_bind,
               hpp, hsp]
    split <;> simp

/-- Witness for C9's theorem: with a PPS present at index 0 but no SPS
at index 0, the slice header parse fails. -/
theorem slice_header_resolves_by_pps_id_witness :
    ff_evc_parse_slice_header [0x80] 1 (fun _ => none) (fun _ => some {})
      (fun _ => none) 0 = none :=
  (slice_header_resolves_by_pps_id [0x80] 1 0 0 ⟨[0x80], 8, 1⟩ (fun _ => none)
      (fun _ => some {}) (fun _ => none) (fun _ => none) rfl).2 {} rfl rfl
